import Mathlib

/-!
Verification of the axum-test HTTP test harness, against `src/lib.rs`
(crate documentation and cookie integration tests) and
`src/test_response.rs` (the `TestResponse` type and its accessors and
assertions).

Modelling conventions:
* Rust `String` / `&str` values are modelled as `List Char`.
* Byte buffers (`Bytes`, `HeaderValue` contents) are `List Nat`, each < 256.
* A Rust function that can panic is modelled as returning
  `Except (List Char) α`, where the `error` payload is the panic message.
* External crates (serde parsers, the `cookie` crate's parser,
  `HeaderValue::to_str`) are abstracted as function parameters.
-/

/-- Convert a Lean string literal to the `List Char` representation used
throughout this development. -/
def str (s : String) : List Char := s.data

/-- Decimal digit rendering of a number, used for status codes in
diagnostic messages. -/
def natToChars (n : Nat) : List Char := Nat.toDigits 10 n

/-- `leadsList pat l` is true when `pat` occurs at the very start of `l`. -/
def leadsList : List Char → List Char → Bool
  | [], _ => true
  | _ :: _, [] => false
  | a :: as, b :: bs => a == b && leadsList as bs

/-- `occursIn pat hay` is true when `pat` occurs contiguously anywhere in
`hay`.  Used to state that a diagnostic message contains a given piece of
text. -/
def occursIn (pat : List Char) : List Char → Bool
  | [] => pat.isEmpty
  | c :: t => leadsList pat (c :: t) || occursIn pat t

/-- Whether an `Except`-modelled Rust call returned normally (did not
panic). -/
def exceptIsOk {ε α : Type} : Except ε α → Bool
  | .ok _ => true
  | .error _ => false

/-- Whether an `Except`-modelled Rust call panicked with a message
containing `pat`. -/
def occursInExcept {α : Type} (pat : List Char) : Except (List Char) α → Bool
  | .ok _ => false
  | .error msg => occursIn pat msg

/-- The Unicode replacement character U+FFFD, which
`String::from_utf8_lossy` substitutes for ill-formed sequences. -/
def replacementChar : Char := Char.ofNat 0xFFFD

/-- A UTF-8 continuation byte, `0x80 ..= 0xBF`. -/
def isCont (b : Nat) : Bool := decide (0x80 ≤ b ∧ b ≤ 0xBF)

/-- Allowed second byte after a three-byte lead, following the UTF-8
validation table used by Rust's standard library: `(0xE0, 0xA0..=0xBF)`,
`(0xE1..=0xEC, 0x80..=0xBF)`, `(0xED, 0x80..=0x9F)`,
`(0xEE..=0xEF, 0x80..=0xBF)`. -/
def utf8SecondOf3 (b1 b2 : Nat) : Bool :=
  decide ((b1 = 0xE0 ∧ 0xA0 ≤ b2 ∧ b2 ≤ 0xBF) ∨
    (0xE1 ≤ b1 ∧ b1 ≤ 0xEC ∧ 0x80 ≤ b2 ∧ b2 ≤ 0xBF) ∨
    (b1 = 0xED ∧ 0x80 ≤ b2 ∧ b2 ≤ 0x9F) ∨
    (0xEE ≤ b1 ∧ b1 ≤ 0xEF ∧ 0x80 ≤ b2 ∧ b2 ≤ 0xBF))

/-- Allowed second byte after a four-byte lead, following the UTF-8
validation table used by Rust's standard library: `(0xF0, 0x90..=0xBF)`,
`(0xF1..=0xF3, 0x80..=0xBF)`, `(0xF4, 0x80..=0x8F)`. -/
def utf8SecondOf4 (b1 b2 : Nat) : Bool :=
  decide ((b1 = 0xF0 ∧ 0x90 ≤ b2 ∧ b2 ≤ 0xBF) ∨
    (0xF1 ≤ b1 ∧ b1 ≤ 0xF3 ∧ 0x80 ≤ b2 ∧ b2 ≤ 0xBF) ∨
    (b1 = 0xF4 ∧ 0x80 ≤ b2 ∧ b2 ≤ 0x8F))

/-- Lossy UTF-8 decoding of a byte sequence, mirroring Rust's
`String::from_utf8_lossy`: well-formed scalar sequences are decoded, and
each maximal ill-formed subpart is replaced by one U+FFFD (an invalid
byte is skipped; a broken multi-byte sequence resumes at the byte that
broke it; a truncated sequence at the end of input yields one U+FFFD). -/
def utf8Lossy : List Nat → List Char
  | [] => []
  | b1 :: t1 =>
    if b1 < 0x80 then
      Char.ofNat b1 :: utf8Lossy t1
    else if 0xC2 ≤ b1 ∧ b1 ≤ 0xDF then
      match t1 with
      | [] => [replacementChar]
      | b2 :: t2 =>
        if isCont b2 then
          Char.ofNat ((b1 - 0xC0) * 0x40 + (b2 - 0x80)) :: utf8Lossy t2
        else
          replacementChar :: utf8Lossy (b2 :: t2)
    else if 0xE0 ≤ b1 ∧ b1 ≤ 0xEF then
      match t1 with
      | [] => [replacementChar]
      | b2 :: t2 =>
        if utf8SecondOf3 b1 b2 then
          match t2 with
          | [] => [replacementChar]
          | b3 :: t3 =>
            if isCont b3 then
              Char.ofNat ((b1 - 0xE0) * 0x1000 + (b2 - 0x80) * 0x40 + (b3 - 0x80))
                :: utf8Lossy t3
            else
              replacementChar :: utf8Lossy (b3 :: t3)
        else
          replacementChar :: utf8Lossy (b2 :: t2)
    else if 0xF0 ≤ b1 ∧ b1 ≤ 0xF4 then
      match t1 with
      | [] => [replacementChar]
      | b2 :: t2 =>
        if utf8SecondOf4 b1 b2 then
          match t2 with
          | [] => [replacementChar]
          | b3 :: t3 =>
            if isCont b3 then
              match t3 with
              | [] => [replacementChar]
              | b4 :: t4 =>
                if isCont b4 then
                  Char.ofNat ((b1 - 0xF0) * 0x40000 + (b2 - 0x80) * 0x1000 +
                      (b3 - 0x80) * 0x40 + (b4 - 0x80))
                    :: utf8Lossy t4
                else
                  replacementChar :: utf8Lossy (b4 :: t4)
            else
              replacementChar :: utf8Lossy (b3 :: t3)
        else
          replacementChar :: utf8Lossy (b2 :: t2)
    else
      replacementChar :: utf8Lossy t1

/-- The standard UTF-8 encoding of one Unicode scalar value, used to
state that `utf8Lossy` really is UTF-8 decoding on well-formed input. -/
def utf8EncodeChar (c : Char) : List Nat :=
  let n := c.toNat
  if n < 0x80 then [n]
  else if n < 0x800 then [0xC0 + n / 0x40, 0x80 + n % 0x40]
  else if n < 0x10000 then
    [0xE0 + n / 0x1000, 0x80 + n / 0x40 % 0x40, 0x80 + n % 0x40]
  else
    [0xF0 + n / 0x40000, 0x80 + n / 0x1000 % 0x40, 0x80 + n / 0x40 % 0x40,
      0x80 + n % 0x40]

/-- UTF-8 encoding of a sequence of scalar values. -/
def utf8Encode (cs : List Char) : List Nat :=
  cs.foldr (fun c acc => utf8EncodeChar c ++ acc) []

/-- A parsed cookie as in the `cookie` crate: the model keeps the name
and value, which is all this repository's code inspects. -/
structure Cookie where
  name : List Char
  value : List Char
deriving DecidableEq

/-- Embedding of `TestResponse` (src/test_response.rs): the captured
status, headers, body bytes, the formatted originating request
(`RequestPathFormatter`, modelled as the method and path text) and the
full request url. -/
structure TestResponse where
  request_format : List Char
  full_request_url : List Char
  headers : List (List Char × List Nat)
  status_code : Nat
  response_body : List Nat
deriving DecidableEq

/-- `TestResponse::as_bytes` (src/test_response.rs): the raw underlying
response bytes. -/
def TestResponse.as_bytes (r : TestResponse) : List Nat := r.response_body

/-- `TestResponse::into_bytes` (src/test_response.rs). -/
def TestResponse.into_bytes (r : TestResponse) : List Nat := r.response_body

/-- `TestResponse::text` (src/test_response.rs):
`String::from_utf8_lossy(&self.as_bytes()).to_string()`.  Total: it
cannot fail or panic. -/
def TestResponse.text (r : TestResponse) : List Char := utf8Lossy r.as_bytes

/-- `TestResponse::json` (src/test_response.rs).  The serde_json parser
is an external collaborator, abstracted as the parameter `parse`; when
it fails the call panics with a message naming the originating
request. -/
def TestResponse.json {T : Type} (parse : List Nat → Option T)
    (r : TestResponse) : Except (List Char) T :=
  match parse r.as_bytes with
  | some v => .ok v
  | none => .error (str "Deserializing response from Json, for request " ++ r.request_format)

/-- `TestResponse::yaml` (src/test_response.rs, `yaml` feature), with
the serde_yaml parser abstracted as `parse`. -/
def TestResponse.yaml {T : Type} (parse : List Nat → Option T)
    (r : TestResponse) : Except (List Char) T :=
  match parse r.as_bytes with
  | some v => .ok v
  | none => .error (str "Deserializing response from YAML, for request " ++ r.request_format)

/-- `TestResponse::form` (src/test_response.rs), with the
serde_urlencoded parser abstracted as `parse`. -/
def TestResponse.form {T : Type} (parse : List Nat → Option T)
    (r : TestResponse) : Except (List Char) T :=
  match parse r.as_bytes with
  | some v => .ok v
  | none => .error (str "Deserializing response from Form, for request " ++ r.request_format)

/-- `TestResponse::maybe_header` (src/test_response.rs):
`self.headers.get(header_name)` returns the first value stored under the
name, or `None`. -/
def TestResponse.maybe_header (r : TestResponse) (name : List Char) :
    Option (List Nat) :=
  (r.headers.find? (fun p => p.1 == name)).map (fun p => p.2)

/-- `TestResponse::header` (src/test_response.rs): like `maybe_header`
but panics with `Cannot find header .., for request ..` when the header
is absent. -/
def TestResponse.header (r : TestResponse) (name : List Char) :
    Except (List Char) (List Nat) :=
  match r.headers.find? (fun p => p.1 == name) with
  | some p => .ok p.2
  | none => .error (str "Cannot find header " ++ name ++ str ", for request " ++ r.request_format)

/-- `TestResponse::iter_headers_by_name` (src/test_response.rs):
`self.headers.get_all(header_name)`, all values stored under the name in
insertion order. -/
def TestResponse.iter_headers_by_name (r : TestResponse) (name : List Char) :
    List (List Nat) :=
  (r.headers.filter (fun p => p.1 == name)).map (fun p => p.2)

/-- The `http` crate's `SET_COOKIE` header name. -/
def setCookieName : List Char := str "set-cookie"

/-- One step of `TestResponse::iter_cookies` (src/test_response.rs) on a
single `Set-Cookie` header value: `header.to_str()` (the `http` crate,
abstracted as `toStrFn`; fails on non-visible-ASCII bytes) followed by
`Cookie::parse` (the `cookie` crate, abstracted as `parseFn`).  Either
failure `.unwrap()`s, i.e. panics, with the message used in the
source. -/
def parseSetCookieWith (toStrFn : List Nat → Option (List Char))
    (parseFn : List Char → Option Cookie) (fmt : List Char) (v : List Nat) :
    Except (List Char) Cookie :=
  match toStrFn v with
  | none => .error (str "Reading header Set-Cookie as string, for request " ++ fmt)
  | some s =>
    match parseFn s with
    | none => .error (str "Parsing Set-Cookie header, for request " ++ fmt)
    | some c => .ok c

/-- Consuming the iterator returned by `iter_cookies`: each value is
parsed in order, and the first value that fails to parse panics. -/
def collectCookies (toStrFn : List Nat → Option (List Char))
    (parseFn : List Char → Option Cookie) (fmt : List Char) :
    List (List Nat) → Except (List Char) (List Cookie)
  | [] => .ok []
  | v :: t =>
    match parseSetCookieWith toStrFn parseFn fmt v with
    | .error e => .error e
    | .ok c =>
      match collectCookies toStrFn parseFn fmt t with
      | .error e => .error e
      | .ok cs => .ok (c :: cs)

/-- `TestResponse::iter_cookies` (src/test_response.rs), fully consumed:
each `Set-Cookie` header value is parsed in order, and the first value
that fails to parse panics. -/
def TestResponse.iter_cookies (toStrFn : List Nat → Option (List Char))
    (parseFn : List Char → Option Cookie) (r : TestResponse) :
    Except (List Char) (List Cookie) :=
  collectCookies toStrFn parseFn r.request_format
    (r.iter_headers_by_name setCookieName)

/-- The scan done by `TestResponse::maybe_cookie` (src/test_response.rs):
walk the `Set-Cookie` values in order, return the first cookie whose
name matches, and panic if a value fails to parse before a match is
found. -/
def maybeCookieScan (toStrFn : List Nat → Option (List Char))
    (parseFn : List Char → Option Cookie) (fmt : List Char)
    (name : List Char) : List (List Nat) → Except (List Char) (Option Cookie)
  | [] => .ok none
  | v :: t =>
    match parseSetCookieWith toStrFn parseFn fmt v with
    | .error e => .error e
    | .ok c =>
      if c.name = name then .ok (some c)
      else maybeCookieScan toStrFn parseFn fmt name t

/-- `TestResponse::maybe_cookie` (src/test_response.rs). -/
def TestResponse.maybe_cookie (toStrFn : List Nat → Option (List Char))
    (parseFn : List Char → Option Cookie) (r : TestResponse)
    (name : List Char) : Except (List Char) (Option Cookie) :=
  maybeCookieScan toStrFn parseFn r.request_format name
    (r.iter_headers_by_name setCookieName)

/-- `TestResponse::cookie` (src/test_response.rs): `maybe_cookie`, and a
panic `Cannot find cookie .., for request ..` when it returns `None`. -/
def TestResponse.cookie (toStrFn : List Nat → Option (List Char))
    (parseFn : List Char → Option Cookie) (r : TestResponse)
    (name : List Char) : Except (List Char) Cookie :=
  match r.maybe_cookie toStrFn parseFn name with
  | .error e => .error e
  | .ok (some c) => .ok c
  | .ok none => .error (str "Cannot find cookie " ++ name ++ str ", for request " ++ r.request_format)

/-- `TestResponse::cookies` (src/test_response.rs): collect every parsed
cookie into a `CookieJar` (`jar.add` replaces an existing cookie with
the same name). -/
def TestResponse.cookies (toStrFn : List Nat → Option (List Char))
    (parseFn : List Char → Option Cookie) (r : TestResponse) :
    Except (List Char) (List Cookie) :=
  match r.iter_cookies toStrFn parseFn with
  | .error e => .error e
  | .ok cs => .ok (cs.foldl (fun jar c => jar.filter (fun d => d.name != c.name) ++ [c]) [])

/-- `TestResponse::assert_text` (src/test_response.rs): a bare
`assert_eq!(other_contents, &self.text())`.  On mismatch the panic
message is the standard `assert_eq!` text carrying the left (expected)
and right (actual) values; it carries no information about the
originating request. -/
def TestResponse.assert_text (r : TestResponse) (other : List Char) :
    Except (List Char) Unit :=
  if other = r.text then .ok ()
  else .error (str "assertion failed: left == right, left: " ++ other ++
    (str ", right: " ++ r.text))

/-- `TestResponse::assert_status` (src/test_response.rs):
`assert_eq!(expected_status_code, status_code, "Expected status code
.., got .., for request ..")`, so the mismatch message carries the
expected code, the received code, and the originating request. -/
def TestResponse.assert_status (r : TestResponse) (expected : Nat) :
    Except (List Char) Unit :=
  if expected = r.status_code then .ok ()
  else .error (str "assertion failed: left == right, left: " ++ natToChars expected ++
    (str ", right: " ++ natToChars r.status_code ++
      (str ", Expected status code " ++ natToChars expected ++
        (str ", got " ++ natToChars r.status_code ++
          (str ", for request " ++ r.request_format)))))

/-- `TestResponse::assert_status_success` (src/test_response.rs):
`assert!(200 <= status_code && status_code <= 299, ..)`. -/
def TestResponse.assert_status_success (r : TestResponse) :
    Except (List Char) Unit :=
  if 200 ≤ r.status_code ∧ r.status_code ≤ 299 then .ok ()
  else .error (str "Expect status code within 2xx range, got " ++
    natToChars r.status_code ++ (str ", for request " ++ r.request_format))

/-- `TestResponse::assert_status_failure` (src/test_response.rs):
`assert!(status_code < 200 || 299 < status_code, ..)`. -/
def TestResponse.assert_status_failure (r : TestResponse) :
    Except (List Char) Unit :=
  if r.status_code < 200 ∨ 299 < r.status_code then .ok ()
  else .error (str "Expect status code outside 2xx range, got " ++
    natToChars r.status_code ++ (str ", for request " ++ r.request_format))

/-- Modelled from the spec: `TestServerConfig` (its module
`src/test_server_config.rs` is not under src/).  Per the crate docs in
src/lib.rs, cookie saving is disabled by default and fail-fast
(`expect_success_by_default`) is off by default. -/
structure TestServerConfig where
  save_cookies : Bool
  default_content_type : Option (List Char)
  expect_success_by_default : Bool
deriving DecidableEq

/-- Modelled from the spec and crate docs: the library-default
configuration, with cookie saving and fail-fast both off. -/
def TestServerConfig.default : TestServerConfig :=
  { save_cookies := false
    default_content_type := none
    expect_success_by_default := false }

/-- Modelled from the spec: the request builder state accumulated by
`TestRequest` (its module `src/test_request.rs` is not under src/):
method, path, body, the per-request expect-failure flag, the tri-state
cookie-saving override, the request-level `clear_cookies` flag, and
cookies added for this request only. -/
structure TestRequest where
  method : List Char
  path : List Char
  body : List Nat
  expect_failure : Bool
  save_cookies_override : Option Bool
  cookies_cleared : Bool
  extra_cookies : List Cookie
deriving DecidableEq

/-- A `TestRequest` with the builder's initial per-request state: no
body, no expect-failure mark, no cookie-saving override, cookies not
cleared, no extra cookies. -/
def mkRequest (method path : List Char) : TestRequest :=
  { method := method
    path := path
    body := []
    expect_failure := false
    save_cookies_override := none
    cookies_cleared := false
    extra_cookies := [] }

/-- Modelled from the spec: the harness (`TestServer`,
`src/test_server.rs` is not under src/), owning the configuration and
the shared Cookie Store. -/
structure TestServer where
  config : TestServerConfig
  cookies : List Cookie
deriving DecidableEq

/-- `TestServer::clear_cookies` (modelled from the spec): empties the
harness-level Cookie Store. -/
def TestServer.clear_cookies (s : TestServer) : TestServer :=
  { s with cookies := [] }

/-- The request-handling service: an opaque callable taking the method,
path, the cookies sent with the request and the body bytes, and
producing a status code, the `Set-Cookie` cookies of the response, and
the response body bytes. -/
def App : Type :=
  List Char → List Char → List Cookie → List Nat → Nat × List Cookie × List Nat

/-- Modelled from the spec: cookie-saving precedence for one request —
per-request explicit choice, else the harness-level default. -/
def resolve_save_cookies (cfg : TestServerConfig) (req : TestRequest) : Bool :=
  req.save_cookies_override.getD cfg.save_cookies

/-- Modelled from the spec: the cookies serialized into the outgoing
`Cookie` header — the store's contents plus the request's own cookies,
or none at all when the request cleared its cookies. -/
def cookies_to_send (server : TestServer) (req : TestRequest) : List Cookie :=
  if req.cookies_cleared then [] else server.cookies ++ req.extra_cookies

/-- Modelled from the spec: merging a response's `Set-Cookie` cookies
into the Cookie Store, last write winning per cookie name. -/
def cookie_store_merge (store newCookies : List Cookie) : List Cookie :=
  newCookies.foldl (fun st c => st.filter (fun d => d.name != c.name) ++ [c]) store

/-- Looking a cookie's value up by name (first match). -/
def storeLookup (store : List Cookie) (name : List Char) : Option (List Char) :=
  (store.find? (fun c => c.name == name)).map (fun c => c.value)

/-- The value of the last cookie with the given name in a list, if any. -/
def lastLookup (cs : List Cookie) (name : List Char) : Option (List Char) :=
  (cs.reverse.find? (fun c => c.name == name)).map (fun c => c.value)

/-- The status code of the response the service produced for a
dispatched request. -/
def dispatchStatus (server : TestServer) (app : App) (req : TestRequest) : Nat :=
  (app req.method req.path (cookies_to_send server req) req.body).1

/-- The `Set-Cookie` cookies of the response the service produced. -/
def dispatchSetCookies (server : TestServer) (app : App) (req : TestRequest) :
    List Cookie :=
  (app req.method req.path (cookies_to_send server req) req.body).2.1

/-- The body bytes of the response the service produced. -/
def dispatchBody (server : TestServer) (app : App) (req : TestRequest) : List Nat :=
  (app req.method req.path (cookies_to_send server req) req.body).2.2

/-- Modelled from the spec (section 4.2 dispatch, and the crate docs'
Fail Fast section in src/lib.rs; `src/test_request.rs` is not under
src/): resolve the cookies to send, call the service, abort (panic)
when the response status is outside 2xx while the harness was
configured with `expect_success_by_default` and the request was not
marked `expect_failure`, merge `Set-Cookie` cookies into the store when
cookie saving resolved to true, and wrap the parts into a
`TestResponse`. -/
def dispatch (server : TestServer) (app : App) (req : TestRequest) :
    Except (List Char) (TestServer × TestResponse) :=
  if server.config.expect_success_by_default ∧ req.expect_failure = false ∧
      (dispatchStatus server app req < 200 ∨ 299 < dispatchStatus server app req) then
    .error (str "Expect status code within 2xx range, got " ++
      natToChars (dispatchStatus server app req) ++
      (str ", for request " ++ req.method ++ (str " " ++ req.path)))
  else
    .ok ({ server with
        cookies :=
          if resolve_save_cookies server.config req then
            cookie_store_merge server.cookies (dispatchSetCookies server app req)
          else server.cookies },
      { request_format := req.method ++ (str " " ++ req.path)
        full_request_url := str "http://localhost" ++ req.path
        headers := (dispatchSetCookies server app req).map
          (fun c => (setCookieName, utf8Encode c.name ++ ((str "=").map Char.toNat ++ utf8Encode c.value)))
        status_code := dispatchStatus server app req
        response_body := dispatchBody server app req })

/-- The cookie name fixed by the integration tests in src/lib.rs. -/
def TEST_COOKIE_NAME : List Char := str "test-cookie"

/-- The `put_cookie` route of the integration tests in src/lib.rs: read
the body as lossy UTF-8 text, add a cookie `test-cookie` holding it to
the jar (which the response returns as a `Set-Cookie` header), and
answer `done`. -/
def put_cookie (body : List Nat) : Nat × List Cookie × List Nat :=
  (200, [{ name := TEST_COOKIE_NAME, value := utf8Lossy body }], utf8Encode (str "done"))

/-- The `get_cookie` route of the integration tests in src/lib.rs:
answer the value of the `test-cookie` cookie sent with the request, or
`cookie-not-found`. -/
def get_cookie (cookies : List Cookie) : Nat × List Cookie × List Nat :=
  (200, [], utf8Encode ((storeLookup cookies TEST_COOKIE_NAME).getD (str "cookie-not-found")))

/-- The router of the integration tests in src/lib.rs:
`PUT /cookie -> put_cookie`, `GET /cookie -> get_cookie`. -/
def cookieApp : App := fun method path cookies body =>
  if path = str "/cookie" ∧ method = str "PUT" then put_cookie body
  else if path = str "/cookie" ∧ method = str "GET" then get_cookie cookies
  else (404, [], [])

/-- Sample captured response used to instantiate theorems with
hypotheses at concrete inputs. -/
def sampleResp : TestResponse :=
  { request_format := str "GET /t"
    full_request_url := str "http://localhost/t"
    headers := [(str "x-a", [1]), (str "x-a", [2]), (str "x-b", [3])]
    status_code := 200
    response_body := [] }

/-- Captured response used for the assert-message counterexample: body
`b`, produced by a request formatted `GET /pass`. -/
def c8resp : TestResponse :=
  { request_format := str "GET /pass"
    full_request_url := str "http://localhost/pass"
    headers := []
    status_code := 200
    response_body := utf8Encode (str "b") }

/-- Concrete stand-in for `HeaderValue::to_str`: succeeds only on
visible-ASCII bytes. -/
def visibleAsciiToStr : List Nat → Option (List Char) :=
  fun v =>
    if v.all (fun b => decide (0x20 ≤ b ∧ b ≤ 0x7E)) then some (v.map Char.ofNat)
    else none

/-- Concrete stand-in for `Cookie::parse`: accepts `name=value`. -/
def eqCookieParse : List Char → Option Cookie :=
  fun s =>
    match s.dropWhile (fun c => c != '=') with
    | [] => none
    | _ :: val => some { name := s.takeWhile (fun c => c != '='), value := val }

/-- A response with one well-formed `Set-Cookie: a=b` header. -/
def c9resp : TestResponse :=
  { request_format := str "GET /c9"
    full_request_url := str "http://localhost/c9"
    headers := [(setCookieName, (str "a=b").map Char.toNat)]
    status_code := 200
    response_body := [] }

/-- A response whose `Set-Cookie` header holds a non-ASCII byte, so
`to_str` fails on it. -/
def c9respBad : TestResponse :=
  { request_format := str "GET /c9bad"
    full_request_url := str "http://localhost/c9bad"
    headers := [(setCookieName, [0xFF])]
    status_code := 200
    response_body := [] }

/-- A harness with the library-default configuration and an empty
Cookie Store. -/
def c2server : TestServer := { config := TestServerConfig.default, cookies := [] }

/-- A service that answers 503 Service Unavailable to every request, as
`route_get_fail` does in the tests of src/test_response.rs. -/
def failApp : App := fun _ _ _ _ => (503, [], [])

/-- A plain `GET /fail` request, not marked `expect_failure`. -/
def c2req : TestRequest := mkRequest (str "GET") (str "/fail")

/-- A harness configured to expect success by default, turning
fail-fast on. -/
def c2strictServer : TestServer :=
  { config :=
      { save_cookies := false
        default_content_type := none
        expect_success_by_default := true }
    cookies := [] }

/-- A service that sets a cookie `sc=v` on every response. -/
def setCookieApp : App :=
  fun _ _ _ _ => (200, [{ name := str "sc", value := str "v" }], [])

/-- A default-configured harness whose store already holds `a=b`. -/
def c3server : TestServer :=
  { config := TestServerConfig.default
    cookies := [{ name := str "a", value := str "b" }] }

/-- A plain `GET /c3` request. -/
def c3req : TestRequest := mkRequest (str "GET") (str "/c3")

/-- The harness state after the C3 dispatch, written out. -/
def c3srv2 : TestServer :=
  { config := TestServerConfig.default
    cookies := [{ name := str "a", value := str "b" }] }

/-- The response of the C3 dispatch, written out. -/
def c3resp : TestResponse :=
  { request_format := str "GET /c3"
    full_request_url := str "http://localhost/c3"
    headers := [(setCookieName,
      utf8Encode (str "sc") ++ ((str "=").map Char.toNat ++ utf8Encode (str "v")))]
    status_code := 200
    response_body := [] }

/-- The configuration of the auto-cookie-saving scenario
(`save_cookies = true`). -/
def c4config : TestServerConfig :=
  { save_cookies := true
    default_content_type := none
    expect_success_by_default := false }

/-- The scenario harness: cookie saving on, empty store. -/
def c4server : TestServer := { config := c4config, cookies := [] }

/-- `PUT /cookie` with body `hello`. -/
def c4put : TestRequest :=
  { mkRequest (str "PUT") (str "/cookie") with body := utf8Encode (str "hello") }

/-- `GET /cookie`. -/
def c4get : TestRequest := mkRequest (str "GET") (str "/cookie")

/-- The text of the second response in the scenario of
`it_should_pass_cookies_created_back_up_to_server_automatically`
(src/lib.rs): `PUT /cookie` with body `hello`, then `GET /cookie` on
the updated harness. -/
def c4secondText : Except (List Char) (List Char) :=
  match dispatch c4server cookieApp c4put with
  | .error e => .error e
  | .ok (srv1, _) =>
    match dispatch srv1 cookieApp c4get with
    | .error e => .error e
    | .ok (_, resp2) => .ok resp2.text

/-- The harness state after the scenario's `PUT /cookie`, written
out: the store now holds `test-cookie=hello`. -/
def c4srv1 : TestServer :=
  { config := c4config
    cookies := [{ name := TEST_COOKIE_NAME, value := str "hello" }] }

/-- The response of the scenario's `PUT /cookie`, written out. -/
def c4resp1 : TestResponse :=
  { request_format := str "PUT /cookie"
    full_request_url := str "http://localhost/cookie"
    headers := [(setCookieName,
      utf8Encode TEST_COOKIE_NAME ++ ((str "=").map Char.toNat ++ utf8Encode (str "hello")))]
    status_code := 200
    response_body := utf8Encode (str "done") }

/-- A request that cleared its cookies. -/
def c5clearedReq : TestRequest :=
  { mkRequest (str "GET") (str "/c5") with cookies_cleared := true }

theorem leadsList_append (l t : List Char) : leadsList l (l ++ t) = true := by
  induction l with
  | nil => rfl
  | cons a as ih => simp [leadsList, ih]

theorem leadsList_self (l : List Char) : leadsList l l = true := by
  have h := leadsList_append l []
  simpa using h

theorem occursIn_of_leads (pat hay : List Char) (h : leadsList pat hay = true) :
    occursIn pat hay = true := by
  cases hay with
  | nil =>
    cases pat with
    | nil => rfl
    | cons a as => simp [leadsList] at h
  | cons c t => simp [occursIn, h]

theorem occursIn_cons (pat : List Char) (c : Char) (t : List Char)
    (h : occursIn pat t = true) : occursIn pat (c :: t) = true := by
  simp [occursIn, h]

theorem occursIn_append (pat a b : List Char) :
    occursIn pat (a ++ (pat ++ b)) = true := by
  induction a with
  | nil => exact occursIn_of_leads _ _ (leadsList_append pat b)
  | cons x xs ih => exact occursIn_cons _ _ _ ih

theorem occursIn_append_right (pat a : List Char) :
    occursIn pat (a ++ pat) = true := by
  have h := occursIn_append pat a []
  simpa using h

theorem utf8Lossy_one (b : Nat) (t : List Nat) (h : b < 0x80) :
    utf8Lossy (b :: t) = Char.ofNat b :: utf8Lossy t := by
  rw [utf8Lossy.eq_def]
  simp [h]

theorem utf8Lossy_two (b1 b2 : Nat) (t : List Nat)
    (h1 : 0xC2 ≤ b1 ∧ b1 ≤ 0xDF) (h2 : isCont b2 = true) :
    utf8Lossy (b1 :: b2 :: t) =
      Char.ofNat ((b1 - 0xC0) * 0x40 + (b2 - 0x80)) :: utf8Lossy t := by
  have hn : ¬ b1 < 0x80 := by omega
  rw [utf8Lossy.eq_def]
  simp [hn, h1.1, h1.2, h2]

theorem utf8Lossy_three (b1 b2 b3 : Nat) (t : List Nat)
    (h1 : 0xE0 ≤ b1 ∧ b1 ≤ 0xEF) (h2 : utf8SecondOf3 b1 b2 = true)
    (h3 : isCont b3 = true) :
    utf8Lossy (b1 :: b2 :: b3 :: t) =
      Char.ofNat ((b1 - 0xE0) * 0x1000 + (b2 - 0x80) * 0x40 + (b3 - 0x80))
        :: utf8Lossy t := by
  have hn1 : ¬ b1 < 0x80 := by omega
  have hn2 : ¬ (0xC2 ≤ b1 ∧ b1 ≤ 0xDF) := by omega
  rw [utf8Lossy.eq_def]
  simp [hn1, hn2, h1.1, h1.2, h2, h3]

theorem utf8Lossy_four (b1 b2 b3 b4 : Nat) (t : List Nat)
    (h1 : 0xF0 ≤ b1 ∧ b1 ≤ 0xF4) (h2 : utf8SecondOf4 b1 b2 = true)
    (h3 : isCont b3 = true) (h4 : isCont b4 = true) :
    utf8Lossy (b1 :: b2 :: b3 :: b4 :: t) =
      Char.ofNat ((b1 - 0xF0) * 0x40000 + (b2 - 0x80) * 0x1000 +
          (b3 - 0x80) * 0x40 + (b4 - 0x80))
        :: utf8Lossy t := by
  have hn1 : ¬ b1 < 0x80 := by omega
  have hn2 : ¬ (0xC2 ≤ b1 ∧ b1 ≤ 0xDF) := by omega
  have hn3 : ¬ (0xE0 ≤ b1 ∧ b1 ≤ 0xEF) := by omega
  rw [utf8Lossy.eq_def]
  simp [hn1, hn2, hn3, h1.1, h1.2, h2, h3, h4]

theorem utf8Lossy_encodeChar (c : Char) (t : List Nat) :
    utf8Lossy (utf8EncodeChar c ++ t) = c :: utf8Lossy t := by
  have hv : c.toNat < 0xd800 ∨ (0xdfff < c.toNat ∧ c.toNat < 0x110000) := by
    rcases c.valid with h | h
    · exact Or.inl h
    · exact Or.inr ⟨h.1, h.2⟩
  set n := c.toNat with hn
  by_cases h1 : n < 0x80
  · have he : utf8EncodeChar c = [n] := by
      simp [utf8EncodeChar, ← hn, h1]
    rw [he]
    rw [List.cons_append, List.nil_append]
    rw [utf8Lossy_one n t h1]
    rw [hn, Char.ofNat_toNat]
  · by_cases h2 : n < 0x800
    · have he : utf8EncodeChar c = [0xC0 + n / 0x40, 0x80 + n % 0x40] := by
        simp [utf8EncodeChar, ← hn, h1, h2]
      rw [he]
      simp only [List.cons_append, List.nil_append]
      rw [utf8Lossy_two _ _ t (by omega) (by simp only [isCont, decide_eq_true_eq]; omega)]
      have harg : (0xC0 + n / 0x40 - 0xC0) * 0x40 + (0x80 + n % 0x40 - 0x80) = n := by
        omega
      rw [harg, hn, Char.ofNat_toNat]
    · by_cases h3 : n < 0x10000
      · have he : utf8EncodeChar c =
            [0xE0 + n / 0x1000, 0x80 + n / 0x40 % 0x40, 0x80 + n % 0x40] := by
          simp [utf8EncodeChar, ← hn, h1, h2, h3]
        rw [he]
        simp only [List.cons_append, List.nil_append]
        rw [utf8Lossy_three _ _ _ t (by omega)
          (by simp only [utf8SecondOf3, decide_eq_true_eq]; omega)
          (by simp only [isCont, decide_eq_true_eq]; omega)]
        have harg : (0xE0 + n / 0x1000 - 0xE0) * 0x1000 +
            (0x80 + n / 0x40 % 0x40 - 0x80) * 0x40 + (0x80 + n % 0x40 - 0x80) = n := by
          omega
        rw [harg, hn, Char.ofNat_toNat]
      · have he : utf8EncodeChar c =
            [0xF0 + n / 0x40000, 0x80 + n / 0x1000 % 0x40, 0x80 + n / 0x40 % 0x40,
              0x80 + n % 0x40] := by
          simp [utf8EncodeChar, ← hn, h1, h2, h3]
        rw [he]
        simp only [List.cons_append, List.nil_append]
        rw [utf8Lossy_four _ _ _ _ t (by omega)
          (by simp only [utf8SecondOf4, decide_eq_true_eq]; omega)
          (by simp only [isCont, decide_eq_true_eq]; omega)
          (by simp only [isCont, decide_eq_true_eq]; omega)]
        have harg : (0xF0 + n / 0x40000 - 0xF0) * 0x40000 +
            (0x80 + n / 0x1000 % 0x40 - 0x80) * 0x1000 +
            (0x80 + n / 0x40 % 0x40 - 0x80) * 0x40 + (0x80 + n % 0x40 - 0x80) = n := by
          omega
        rw [harg, hn, Char.ofNat_toNat]

theorem utf8Lossy_encode_append (cs : List Char) (t : List Nat) :
    utf8Lossy (utf8Encode cs ++ t) = cs ++ utf8Lossy t := by
  induction cs with
  | nil => simp [utf8Encode]
  | cons c cs ih =>
    have he : utf8Encode (c :: cs) = utf8EncodeChar c ++ utf8Encode cs := rfl
    rw [he, List.append_assoc, utf8Lossy_encodeChar, ih]
    rfl

theorem utf8Lossy_utf8Encode (cs : List Char) : utf8Lossy (utf8Encode cs) = cs := by
  have h := utf8Lossy_encode_append cs []
  simpa [utf8Lossy] using h

theorem find?_eq_head?_filter {α : Type} (p : α → Bool) (l : List α) :
    l.find? p = (l.filter p).head? := by
  induction l with
  | nil => rfl
  | cons a t ih =>
    cases h : p a with
    | true =>
      rw [List.find?_cons_of_pos _ h, List.filter_cons_of_pos h]
      rfl
    | false =>
      have hn : ¬ p a = true := by simp [h]
      rw [List.find?_cons_of_neg _ hn, List.filter_cons_of_neg hn, ih]

theorem ite_ok_iff {c : Prop} [Decidable c] {e : List Char} :
    ((if c then (Except.ok () : Except (List Char) Unit) else .error e) = .ok ()) ↔ c := by
  by_cases h : c
  · rw [if_pos h]
    exact iff_of_true rfl h
  · rw [if_neg h]
    exact iff_of_false (fun hh => Except.noConfusion hh) h

/-- C1: `assert_status_success` passes exactly when `200 ≤ code ≤ 299`,
`assert_status_failure` passes exactly when `code < 200` or
`code > 299`, and for every status code exactly one of the two
passes. -/
theorem status_range_assertion_laws (r : TestResponse) :
    (r.assert_status_success = .ok () ↔ 200 ≤ r.status_code ∧ r.status_code ≤ 299) ∧
    (r.assert_status_failure = .ok () ↔ (r.status_code < 200 ∨ 299 < r.status_code)) ∧
    ((r.assert_status_success = .ok ()) ↔ ¬ (r.assert_status_failure = .ok ())) := by
  have h1 : r.assert_status_success = .ok () ↔
      200 ≤ r.status_code ∧ r.status_code ≤ 299 := by
    unfold TestResponse.assert_status_success
    exact ite_ok_iff
  have h2 : r.assert_status_failure = .ok () ↔
      (r.status_code < 200 ∨ 299 < r.status_code) := by
    unfold TestResponse.assert_status_failure
    exact ite_ok_iff
  refine ⟨h1, h2, ?_⟩
  rw [h1, h2]
  omega

/-- C6: `text()` is the lossy UTF-8 decoding of the captured body
bytes, the same bytes `as_bytes()` exposes; it is a total function (the
model returns `List Char`, never an error).  On a well-formed UTF-8
body it recovers exactly the encoded scalar values, and an invalid byte
becomes the replacement character. -/
theorem text_is_lossy_utf8_of_as_bytes (r : TestResponse) (cs : List Char) :
    r.text = utf8Lossy r.as_bytes ∧
    utf8Lossy (utf8Encode cs) = cs ∧
    utf8Lossy [0x61, 0xFF, 0x62] = [Char.ofNat 0x61, replacementChar, Char.ofNat 0x62] :=
  ⟨rfl, utf8Lossy_utf8Encode cs, by decide⟩

/-- C10: `header(name)` panics exactly when `maybe_header(name)` is
`None`; when `maybe_header(name)` is `Some v`, `header(name)` returns
the same `v` (the first value under the name); `maybe_header` is the
head of `iter_headers_by_name`, which yields exactly the values stored
under the name, in order. -/
theorem header_lookup_laws (r : TestResponse) (name : List Char) :
    (∀ v, r.maybe_header name = some v → r.header name = .ok v) ∧
    (r.maybe_header name = none ↔ ∃ msg, r.header name = .error msg) ∧
    r.maybe_header name = (r.iter_headers_by_name name).head? ∧
    (∀ v, v ∈ r.iter_headers_by_name name ↔ (name, v) ∈ r.headers) := by
  refine ⟨?_, ?_, ?_, ?_⟩
  · intro v hv
    unfold TestResponse.maybe_header at hv
    unfold TestResponse.header
    cases hfind : r.headers.find? (fun p => p.1 == name) with
    | none => rw [hfind] at hv; simp at hv
    | some p =>
      rw [hfind] at hv
      simp at hv
      simp [hv]
  · unfold TestResponse.maybe_header TestResponse.header
    cases hfind : r.headers.find? (fun p => p.1 == name) with
    | none => simp
    | some p => simp
  · unfold TestResponse.maybe_header TestResponse.iter_headers_by_name
    rw [find?_eq_head?_filter]
    simp
  · intro v
    unfold TestResponse.iter_headers_by_name
    simp only [List.mem_map, List.mem_filter]
    constructor
    · rintro ⟨⟨n', v'⟩, ⟨hm, hn⟩, hv⟩
      simp at hn hv
      subst hn
      subst hv
      exact hm
    · intro hm
      exact ⟨(name, v), ⟨hm, by simp⟩, rfl⟩

/-- C10 witness: the laws applied to `sampleResp`, where `x-a` carries
two values and `header` returns the first. -/
theorem header_lookup_laws_witness :
    sampleResp.maybe_header (str "x-a") = some [1] ∧
    sampleResp.header (str "x-a") = .ok [1] :=
  ⟨by decide, (header_lookup_laws sampleResp (str "x-a")).1 [1] (by decide)⟩

/-- C7: a decode strategy (JSON via `json`, form via `form`, YAML via
`yaml`, the external serde parser abstracted as `parse`) returns the
decoded value when the parser accepts the body bytes, and panics with a
diagnostic naming the originating request when it rejects them. -/
theorem decode_strategy_laws {T : Type} (parse : List Nat → Option T)
    (r : TestResponse) :
    (∀ v, parse r.as_bytes = some v →
      r.json parse = .ok v ∧ r.form parse = .ok v ∧ r.yaml parse = .ok v) ∧
    (parse r.as_bytes = none →
      (∃ msg, r.json parse = .error msg ∧ occursIn r.request_format msg = true) ∧
      (∃ msg, r.form parse = .error msg ∧ occursIn r.request_format msg = true) ∧
      (∃ msg, r.yaml parse = .error msg ∧ occursIn r.request_format msg = true)) := by
  constructor
  · intro v h
    simp [TestResponse.json, TestResponse.form, TestResponse.yaml, h]
  · intro h
    refine ⟨⟨str "Deserializing response from Json, for request " ++ r.request_format,
        by simp [TestResponse.json, h], occursIn_append_right _ _⟩,
      ⟨str "Deserializing response from Form, for request " ++ r.request_format,
        by simp [TestResponse.form, h], occursIn_append_right _ _⟩,
      ⟨str "Deserializing response from YAML, for request " ++ r.request_format,
        by simp [TestResponse.yaml, h], occursIn_append_right _ _⟩⟩

/-- C7 witness: a parser that accepts `sampleResp`'s body decodes to
its value through every strategy. -/
theorem decode_strategy_laws_witness :
    sampleResp.json (fun _ => some (7 : Nat)) = .ok 7 ∧
    sampleResp.form (fun _ => some (7 : Nat)) = .ok 7 ∧
    sampleResp.yaml (fun _ => some (7 : Nat)) = .ok 7 :=
  (decode_strategy_laws (fun _ => some (7 : Nat)) sampleResp).1 7 rfl

theorem occursIn_append_left (pat h1 h2 : List Char)
    (h : occursIn pat h2 = true) : occursIn pat (h1 ++ h2) = true := by
  induction h1 with
  | nil => exact h
  | cons c t ih => exact occursIn_cons _ _ _ ih

theorem occursIn_here (pat b : List Char) : occursIn pat (pat ++ b) = true :=
  occursIn_of_leads _ _ (leadsList_append pat b)

theorem occursIn_self (pat : List Char) : occursIn pat pat = true :=
  occursIn_of_leads _ _ (leadsList_self pat)

/-- C8 counterexample: an `assert_text` mismatch panics with the plain
`assert_eq!` message, which does not contain the originating request's
method and path (here `GET /pass`), refuting the claim that every
`assert_*` failure message includes them. -/
theorem assert_text_message_lacks_request_path :
    exceptIsOk (c8resp.assert_text (str "a")) = false ∧
    c8resp.request_format = str "GET /pass" ∧
    occursInExcept (str "GET /pass") (c8resp.assert_text (str "a")) = false := by
  decide

/-- C8 amended: every modelled `assert_*` is a pure comparison of the
captured state (the model is a function of the response, so the
response is unmodified and nothing is retried); on mismatch the panic
message carries the expected and the actual value, and the status
assertions additionally carry the originating request's method and
path — but `assert_text`'s message does not (see the
counterexample). -/
theorem assert_methods_comparison_laws (r : TestResponse) (other : List Char)
    (expected : Nat) :
    (r.assert_text other = .ok () ↔ other = r.text) ∧
    (other ≠ r.text → ∃ msg, r.assert_text other = .error msg ∧
      occursIn other msg = true ∧ occursIn r.text msg = true) ∧
    (r.assert_status expected = .ok () ↔ expected = r.status_code) ∧
    (expected ≠ r.status_code → ∃ msg, r.assert_status expected = .error msg ∧
      occursIn (natToChars expected) msg = true ∧
      occursIn (natToChars r.status_code) msg = true ∧
      occursIn r.request_format msg = true) := by
  refine ⟨?_, ?_, ?_, ?_⟩
  · unfold TestResponse.assert_text
    exact ite_ok_iff
  · intro hne
    unfold TestResponse.assert_text
    rw [if_neg hne]
    refine ⟨_, rfl, ?_, ?_⟩
    · simp only [List.append_assoc]
      exact occursIn_append_left _ _ _ (occursIn_here _ _)
    · simp only [List.append_assoc]
      exact occursIn_append_left _ _ _ (occursIn_append_left _ _ _
        (occursIn_append_left _ _ _ (occursIn_self _)))
  · unfold TestResponse.assert_status
    exact ite_ok_iff
  · intro hne
    unfold TestResponse.assert_status
    rw [if_neg hne]
    refine ⟨_, rfl, ?_, ?_, ?_⟩
    · simp only [List.append_assoc]
      exact occursIn_append_left _ _ _ (occursIn_here _ _)
    · simp only [List.append_assoc]
      exact occursIn_append_left _ _ _ (occursIn_append_left _ _ _
        (occursIn_append_left _ _ _ (occursIn_here _ _)))
    · simp only [List.append_assoc]
      exact occursIn_append_left _ _ _ (occursIn_append_left _ _ _
        (occursIn_append_left _ _ _ (occursIn_append_left _ _ _
          (occursIn_append_left _ _ _ (occursIn_append_left _ _ _
            (occursIn_append_left _ _ _ (occursIn_append_left _ _ _
              (occursIn_append_left _ _ _ (occursIn_self _)))))))))

/-- C8 witness: the amended laws at concrete inputs — a mismatching
`assert_text` panics, a matching `assert_status` passes. -/
theorem assert_methods_comparison_laws_witness :
    (str "a" ≠ c8resp.text) ∧ exceptIsOk (c8resp.assert_text (str "a")) = false ∧
    c8resp.assert_status 200 = .ok () := by
  refine ⟨by decide, ?_,
    (assert_methods_comparison_laws c8resp (str "a") 200).2.2.1.mpr rfl⟩
  obtain ⟨msg, hmsg, -, -⟩ :=
    (assert_methods_comparison_laws c8resp (str "a") 200).2.1 (by decide)
  rw [hmsg]
  rfl

theorem collectCookies_ok_eq_all (toStrFn : List Nat → Option (List Char))
    (parseFn : List Char → Option Cookie) (fmt : List Char)
    (l : List (List Nat)) :
    exceptIsOk (collectCookies toStrFn parseFn fmt l) =
      l.all (fun v => exceptIsOk (parseSetCookieWith toStrFn parseFn fmt v)) := by
  induction l with
  | nil => rfl
  | cons v t ih =>
    simp only [collectCookies, List.all_cons]
    cases hp : parseSetCookieWith toStrFn parseFn fmt v with
    | error e => rfl
    | ok c =>
      rw [← ih]
      cases hc : collectCookies toStrFn parseFn fmt t with
      | error e => rfl
      | ok cs => rfl

theorem maybeCookieScan_ok_of_all (toStrFn : List Nat → Option (List Char))
    (parseFn : List Char → Option Cookie) (fmt name : List Char)
    (l : List (List Nat))
    (h : l.all (fun v => exceptIsOk (parseSetCookieWith toStrFn parseFn fmt v)) = true) :
    exceptIsOk (maybeCookieScan toStrFn parseFn fmt name l) = true := by
  induction l with
  | nil => rfl
  | cons v t ih =>
    simp only [List.all_cons, Bool.and_eq_true] at h
    simp only [maybeCookieScan]
    cases hp : parseSetCookieWith toStrFn parseFn fmt v with
    | error e => rw [hp] at h; exact absurd h.1 (by simp [exceptIsOk])
    | ok c =>
      show exceptIsOk (if c.name = name then Except.ok (some c)
        else maybeCookieScan toStrFn parseFn fmt name t) = true
      by_cases hn : c.name = name
      · rw [if_pos hn]
        rfl
      · rw [if_neg hn]
        exact ih h.2

/-- C9: the cookie accessors panic on the first unparseable
`Set-Cookie` header they reach — `iter_cookies` (fully consumed) and
`cookies` panic when any header fails to parse, and `maybe_cookie` and
`cookie` panic when the first header fails to parse; all are total on a
response whose `Set-Cookie` headers all parse. -/
theorem cookie_accessors_parse_laws (toStrFn : List Nat → Option (List Char))
    (parseFn : List Char → Option Cookie) (r : TestResponse) :
    ((r.iter_headers_by_name setCookieName).all
        (fun v => exceptIsOk (parseSetCookieWith toStrFn parseFn r.request_format v)) = true →
      exceptIsOk (r.iter_cookies toStrFn parseFn) = true ∧
      exceptIsOk (r.cookies toStrFn parseFn) = true ∧
      ∀ name, exceptIsOk (r.maybe_cookie toStrFn parseFn name) = true) ∧
    ((∃ v ∈ r.iter_headers_by_name setCookieName,
        exceptIsOk (parseSetCookieWith toStrFn parseFn r.request_format v) = false) →
      exceptIsOk (r.iter_cookies toStrFn parseFn) = false ∧
      exceptIsOk (r.cookies toStrFn parseFn) = false) ∧
    (∀ v t, r.iter_headers_by_name setCookieName = v :: t →
      exceptIsOk (parseSetCookieWith toStrFn parseFn r.request_format v) = false →
      ∀ name, exceptIsOk (r.maybe_cookie toStrFn parseFn name) = false ∧
        exceptIsOk (r.cookie toStrFn parseFn name) = false) := by
  refine ⟨?_, ?_, ?_⟩
  · intro h
    have hiter : exceptIsOk (r.iter_cookies toStrFn parseFn) = true := by
      unfold TestResponse.iter_cookies
      rw [collectCookies_ok_eq_all]
      exact h
    refine ⟨hiter, ?_, ?_⟩
    · unfold TestResponse.cookies
      cases hc : r.iter_cookies toStrFn parseFn with
      | error e => rw [hc] at hiter; exact absurd hiter (by simp [exceptIsOk])
      | ok cs => rfl
    · intro name
      unfold TestResponse.maybe_cookie
      exact maybeCookieScan_ok_of_all _ _ _ _ _ h
  · intro h
    have hall : (r.iter_headers_by_name setCookieName).all
        (fun v => exceptIsOk (parseSetCookieWith toStrFn parseFn r.request_format v)) = false := by
      rcases h with ⟨v, hv, hfail⟩
      rw [List.all_eq_false]
      exact ⟨v, hv, by simp [hfail]⟩
    have hiter : exceptIsOk (r.iter_cookies toStrFn parseFn) = false := by
      unfold TestResponse.iter_cookies
      rw [collectCookies_ok_eq_all]
      exact hall
    refine ⟨hiter, ?_⟩
    unfold TestResponse.cookies
    cases hc : r.iter_cookies toStrFn parseFn with
    | error e => rfl
    | ok cs => rw [hc] at hiter; exact absurd hiter (by simp [exceptIsOk])
  · intro v t hhead hfail name
    have hmaybe : exceptIsOk (r.maybe_cookie toStrFn parseFn name) = false := by
      unfold TestResponse.maybe_cookie
      rw [hhead]
      simp only [maybeCookieScan]
      cases hp : parseSetCookieWith toStrFn parseFn r.request_format v with
      | error e => rfl
      | ok c => rw [hp] at hfail; exact absurd hfail (by simp [exceptIsOk])
    refine ⟨hmaybe, ?_⟩
    unfold TestResponse.cookie
    cases hm : r.maybe_cookie toStrFn parseFn name with
    | error e => rfl
    | ok oc => rw [hm] at hmaybe; exact absurd hmaybe (by simp [exceptIsOk])

/-- C9 witness: with concrete parsers, the accessors succeed on the
well-formed response and `cookie` panics on the malformed one. -/
theorem cookie_accessors_parse_laws_witness :
    exceptIsOk (c9resp.iter_cookies visibleAsciiToStr eqCookieParse) = true ∧
    exceptIsOk (c9respBad.cookie visibleAsciiToStr eqCookieParse (str "a")) = false :=
  ⟨((cookie_accessors_parse_laws visibleAsciiToStr eqCookieParse c9resp).1 (by decide)).1,
    (((cookie_accessors_parse_laws visibleAsciiToStr eqCookieParse c9respBad).2.2
      [0xFF] [] (by decide) (by decide)) (str "a")).2⟩

theorem find?_filter_of_imp {α : Type} (l : List α) (p q : α → Bool)
    (himp : ∀ x, p x = true → q x = true) :
    (l.filter q).find? p = l.find? p := by
  induction l with
  | nil => rfl
  | cons a t ih =>
    by_cases hq : q a = true
    · rw [List.filter_cons_of_pos hq]
      cases hp : p a with
      | true => rw [List.find?_cons_of_pos _ hp, List.find?_cons_of_pos _ hp]
      | false =>
        have hpn : ¬ p a = true := by simp [hp]
        rw [List.find?_cons_of_neg _ hpn, List.find?_cons_of_neg _ hpn, ih]
    · have hpn : ¬ p a = true := fun hp => hq (himp a hp)
      rw [List.filter_cons_of_neg hq, List.find?_cons_of_neg _ hpn, ih]

theorem storeLookup_upsert (st : List Cookie) (c : Cookie) (name : List Char) :
    storeLookup (st.filter (fun d => d.name != c.name) ++ [c]) name =
      if c.name = name then some c.value else storeLookup st name := by
  unfold storeLookup
  rw [List.find?_append]
  by_cases h : c.name = name
  · subst h
    have hnone : (st.filter (fun d => d.name != c.name)).find?
        (fun d => d.name == c.name) = none := by
      rw [List.find?_eq_none]
      intro x hx
      rw [List.mem_filter] at hx
      simpa using hx.2
    rw [hnone]
    simp
  · have hbeq : (c.name == name) = false := by simp [h]
    have hc : ([c].find? (fun d => d.name == name)) = none := by
      simp [List.find?, hbeq]
    have himp : ∀ x : Cookie, (x.name == name) = true → (x.name != c.name) = true := by
      intro x hx
      rw [beq_iff_eq] at hx
      rw [hx]
      exact bne_iff_ne.mpr (fun hh => h hh.symm)
    rw [find?_filter_of_imp st _ _ himp, hc, Option.or_none, if_neg h]

theorem storeLookup_merge (st cs : List Cookie) (name : List Char) :
    storeLookup (cookie_store_merge st cs) name =
      (lastLookup cs name).or (storeLookup st name) := by
  induction cs generalizing st with
  | nil => simp [cookie_store_merge, lastLookup, List.foldl]
  | cons c cs ih =>
    have hm : cookie_store_merge st (c :: cs) =
        cookie_store_merge (st.filter (fun d => d.name != c.name) ++ [c]) cs := rfl
    rw [hm, ih, storeLookup_upsert]
    have hl : lastLookup (c :: cs) name =
        (lastLookup cs name).or (if c.name = name then some c.value else none) := by
      unfold lastLookup
      rw [List.reverse_cons, List.find?_append]
      cases hrev : cs.reverse.find? (fun d => d.name == name) with
      | some d => rfl
      | none =>
        by_cases h : c.name = name
        · have hbeq : (c.name == name) = true := by simp [h]
          simp [List.find?, hbeq]
          exact h
        · have hbeq : (c.name == name) = false := by simp [h]
          simp [List.find?, hbeq]
          rw [if_neg h]
    rw [hl]
    cases lastLookup cs name with
    | some v => rfl
    | none =>
      by_cases h : c.name = name
      · simp only [if_pos h]
        rfl
      · simp only [if_neg h]
        rfl

/-- C2 counterexample: under the library-default configuration
(`expect_success_by_default = false`, per the crate docs' Fail Fast
section) a dispatch that receives a 503 response and was not marked
`expect_failure` returns normally instead of aborting — fail-fast is
not the default. -/
theorem dispatch_default_not_fail_fast :
    exceptIsOk (dispatch c2server failApp c2req) = true ∧
    dispatchStatus c2server failApp c2req = 503 ∧
    c2req.expect_failure = false := by
  decide

/-- C2 amended: fail-fast exists but is opt-in, not the default — a
dispatch aborts before returning exactly when the harness was
configured with `expect_success_by_default = true`, the request was not
marked `expect_failure`, and the response status fell outside the 2xx
range; the default configuration has `expect_success_by_default =
false`. -/
theorem dispatch_fail_fast_opt_in (server : TestServer) (app : App)
    (req : TestRequest) :
    (exceptIsOk (dispatch server app req) = false ↔
      (server.config.expect_success_by_default = true ∧ req.expect_failure = false ∧
        (dispatchStatus server app req < 200 ∨ 299 < dispatchStatus server app req))) ∧
    TestServerConfig.default.expect_success_by_default = false := by
  constructor
  · unfold dispatch
    split
    · rename_i h
      exact iff_of_true rfl h
    · rename_i h
      exact iff_of_false (by simp [exceptIsOk]) h
  · rfl

/-- C2 witness: with `expect_success_by_default = true` the same 503
dispatch does abort. -/
theorem dispatch_fail_fast_opt_in_witness :
    exceptIsOk (dispatch c2strictServer failApp c2req) = false :=
  (dispatch_fail_fast_opt_in c2strictServer failApp c2req).1.mpr
    ⟨rfl, rfl, by decide⟩

theorem dispatch_ok_store_of_save_off (server : TestServer) (app : App)
    (req : TestRequest) (hres : resolve_save_cookies server.config req = false)
    (srv2 : TestServer) (resp : TestResponse)
    (hd : dispatch server app req = .ok (srv2, resp)) :
    srv2.cookies = server.cookies := by
  unfold dispatch at hd
  split at hd
  · exact Except.noConfusion hd
  · simp only [Except.ok.injEq, Prod.mk.injEq] at hd
    obtain ⟨h1, -⟩ := hd
    subst h1
    simp [hres]

/-- C3: when cookie saving resolves to false — which it does under the
library-default configuration when the request does not override it —
the dispatch leaves the harness's Cookie Store exactly as it was,
whatever `Set-Cookie` cookies the response carried, so any subsequent
request sends the same cookies it would have sent before. -/
theorem save_cookies_off_store_unchanged (server : TestServer) (app : App)
    (req : TestRequest) :
    (req.save_cookies_override = none →
      resolve_save_cookies TestServerConfig.default req = false) ∧
    (resolve_save_cookies server.config req = false →
      ∀ srv2 resp, dispatch server app req = .ok (srv2, resp) →
        srv2.cookies = server.cookies ∧
        ∀ req2, cookies_to_send srv2 req2 = cookies_to_send server req2) := by
  constructor
  · intro h
    unfold resolve_save_cookies TestServerConfig.default
    rw [h]
    rfl
  · intro hres srv2 resp hd
    have hc := dispatch_ok_store_of_save_off server app req hres srv2 resp hd
    refine ⟨hc, ?_⟩
    intro req2
    unfold cookies_to_send
    rw [hc]

/-- C3 witness: the laws at concrete inputs — the default resolves
cookie saving to off, and a dispatch against a cookie-setting service
leaves the store holding exactly `a=b`. -/
theorem save_cookies_off_store_unchanged_witness :
    resolve_save_cookies c3server.config c3req = false ∧
    c3srv2.cookies = c3server.cookies :=
  ⟨by decide, ((save_cookies_off_store_unchanged c3server setCookieApp c3req).2
    (by decide) c3srv2 c3resp (by rfl)).1⟩

/-- C4: when cookie saving resolves to true, each `Set-Cookie` cookie
of the response is merged into the Cookie Store (last write winning per
name), so a subsequent request whose cookies were not cleared sends a
cookie with that name and value; concretely, in the src/lib.rs
scenario, `PUT /cookie` with body `hello` followed by `GET /cookie`
yields a second response whose body text is `hello`. -/
theorem save_cookies_on_store_merged_roundtrip :
    (∀ (server : TestServer) (app : App) (req : TestRequest) (srv2 : TestServer)
        (resp : TestResponse),
      resolve_save_cookies server.config req = true →
      dispatch server app req = .ok (srv2, resp) →
      ∀ name value,
        lastLookup (dispatchSetCookies server app req) name = some value →
        storeLookup srv2.cookies name = some value ∧
        ∀ req2 : TestRequest, req2.cookies_cleared = false →
          ∃ c ∈ cookies_to_send srv2 req2, c.name = name ∧ c.value = value) ∧
    c4secondText = .ok (str "hello") := by
  constructor
  · intro server app req srv2 resp hres hd name value hlast
    unfold dispatch at hd
    split at hd
    · exact Except.noConfusion hd
    · simp only [Except.ok.injEq, Prod.mk.injEq] at hd
      obtain ⟨h1, -⟩ := hd
      subst h1
      have hc : ({ server with
          cookies :=
            if resolve_save_cookies server.config req then
              cookie_store_merge server.cookies (dispatchSetCookies server app req)
            else server.cookies } : TestServer).cookies =
          cookie_store_merge server.cookies (dispatchSetCookies server app req) := by
        simp [hres]
      have hlook : storeLookup
          (cookie_store_merge server.cookies (dispatchSetCookies server app req))
          name = some value := by
        rw [storeLookup_merge, hlast]
        rfl
      constructor
      · exact hlook
      · intro req2 hcl
        have hfind : ∃ c, (cookie_store_merge server.cookies
            (dispatchSetCookies server app req)).find?
              (fun d => d.name == name) = some c ∧ c.value = value := by
          unfold storeLookup at hlook
          cases hf : (cookie_store_merge server.cookies
              (dispatchSetCookies server app req)).find? (fun d => d.name == name) with
          | none => rw [hf] at hlook; exact Option.noConfusion hlook
          | some c =>
            rw [hf] at hlook
            exact ⟨c, rfl, Option.some.injEq _ _ ▸ hlook⟩
        obtain ⟨c, hf, hv⟩ := hfind
        have hmem := List.mem_of_find?_eq_some hf
        have hname := List.find?_some (p := fun d => d.name == name) (a := c) hf
        simp only [beq_iff_eq] at hname
        refine ⟨c, ?_, hname, hv⟩
        unfold cookies_to_send
        rw [if_neg (by simp [hcl])]
        exact List.mem_append_left _ hmem
  · rfl

/-- C4 witness: the merge law applied to the scenario's `PUT /cookie`
dispatch — afterwards the store answers `hello` for `test-cookie`. -/
theorem save_cookies_on_store_merged_roundtrip_witness :
    resolve_save_cookies c4server.config c4put = true ∧
    storeLookup c4srv1.cookies TEST_COOKIE_NAME = some (str "hello") :=
  ⟨by decide, (save_cookies_on_store_merged_roundtrip.1 c4server cookieApp c4put
    c4srv1 c4resp1 (by decide) (by rfl) TEST_COOKIE_NAME (str "hello")
    (by decide)).1⟩

/-- C5: clearing cookies on a single request makes that dispatch send
no cookie at all while (when cookie saving is off, as in the citing
test) leaving the harness-level store unchanged for later requests;
clearing cookies on the harness itself empties the store, so every
subsequent request sends none of the previously stored cookies — only
its own explicitly added ones. -/
theorem clear_cookies_request_vs_server (server : TestServer) (app : App)
    (req req2 : TestRequest) :
    (req.cookies_cleared = true →
      cookies_to_send server req = [] ∧
      (resolve_save_cookies server.config req = false →
        ∀ srv2 resp, dispatch server app req = .ok (srv2, resp) →
          srv2.cookies = server.cookies)) ∧
    (server.clear_cookies).cookies = [] ∧
    (req2.cookies_cleared = false →
      cookies_to_send server.clear_cookies req2 = req2.extra_cookies) := by
  refine ⟨?_, rfl, ?_⟩
  · intro hcl
    constructor
    · unfold cookies_to_send
      rw [if_pos hcl]
    · intro hres srv2 resp hd
      exact dispatch_ok_store_of_save_off server app req hres srv2 resp hd
  · intro hcl
    unfold cookies_to_send
    rw [if_neg (by simp [hcl])]
    show [] ++ req2.extra_cookies = req2.extra_cookies
    exact List.nil_append _

/-- C5 witness: at concrete inputs — a cleared request sends no
cookies even though the store holds `a=b`, and after clearing the
harness a plain request sends nothing either. -/
theorem clear_cookies_request_vs_server_witness :
    cookies_to_send c3server c5clearedReq = [] ∧
    cookies_to_send c3server.clear_cookies c3req = [] := by
  constructor
  · exact ((clear_cookies_request_vs_server c3server setCookieApp c5clearedReq
      c3req).1 rfl).1
  · have h := (clear_cookies_request_vs_server c3server setCookieApp c5clearedReq
      c3req).2.2 rfl
    rw [h]
    rfl
